import Mathlib

/-!
Verification of the SILLocation provenance tag (include/swift/SIL/SILLocation.h).

The header is embedded shallowly:

* The AST node reference (llvm::PointerUnion4 of Stmt, Expr, Decl and Pattern
  pointers) becomes a pair of a family discriminator and a pointer value
  (a natural number, 0 modelling the null pointer).  As in llvm::PointerUnion,
  a default-constructed reference carries the FIRST member's discriminator
  (the statement family) together with a null pointer, and the is query only
  inspects the discriminator.
* SourceLoc becomes a natural number, 0 modelling the invalid location.
* The packed KindData field (kind in bits 0-3, flag bits 5-9) becomes a
  natural number manipulated with the same masks and shifts as the source.
* Fatal paths (failed asserts, isa on a null pointer) are modelled by Option
  results, none standing for the unrecoverable failure.
-/

set_option autoImplicit false

/-- The four disjoint AST node families of the pointer union, in declaration
order of llvm::PointerUnion4 of Stmt, Expr, Decl, Pattern. -/
inductive NodeFamily
  | stmt
  | expr
  | decl
  | pattern
  deriving DecidableEq

/-- Discriminator bits of a family inside the pointer union (two tag bits in
the low bits of the opaque value). -/
def NodeFamily.tag : NodeFamily → Nat
  | .stmt => 0
  | .expr => 1
  | .decl => 2
  | .pattern => 3

/-- Model of SILLocation::ASTNodeTy = llvm::PointerUnion4 of Stmt, Expr, Decl
and Pattern pointers: a family discriminator plus a pointer value (0 = null).
A default-constructed union holds the first member's discriminator (stmt)
with a null pointer. -/
structure ASTNodeTy where
  family : NodeFamily := .stmt
  ptr : Nat := 0
  deriving DecidableEq

/-- PointerUnion::isNull tests only the pointer bits. -/
def ASTNodeTy.isNull (n : ASTNodeTy) : Bool :=
  n.ptr == 0

/-- PointerUnion::is of a family pointer type tests only the discriminator
bits; on a null union it reports the first member's family. -/
def ASTNodeTy.isFam (n : ASTNodeTy) (f : NodeFamily) : Bool :=
  n.family == f

/-- PointerUnion::get of a family pointer type: asserts the discriminator
matches (none models the failed assert) and returns the stored pointer,
which may be null. -/
def ASTNodeTy.getFam (n : ASTNodeTy) (f : NodeFamily) : Option Nat :=
  if n.family == f then some n.ptr else none

/-- PointerUnion::dyn_cast of a family pointer type: the stored pointer when
the discriminator matches, otherwise the null pointer. -/
def ASTNodeTy.dynCastFam (n : ASTNodeTy) (f : NodeFamily) : Nat :=
  if n.family == f then n.ptr else 0

/-- PointerUnion::getOpaqueValue: pointer bits with the discriminator packed
into the low bits. -/
def ASTNodeTy.getOpaqueValue (n : ASTNodeTy) : Nat :=
  4 * n.ptr + n.family.tag

/-- An AST node subtype T as used by the templated node probes: the owning
family computed by base_type at compile time, plus the family-internal
dynamic subtype test performed by isa on a non-null node. -/
structure NodeSubtype where
  family : NodeFamily
  pred : Nat → Bool

/-- llvm isa on a pointer: fatal on the null pointer (the "isa used on a null
pointer" assertion, modelled as none), otherwise the dynamic subtype test. -/
def isaNode (T : NodeSubtype) (p : Nat) : Option Bool :=
  if p == 0 then none else some (T.pred p)

/-- llvm dyn_cast_or_null on a pointer: null stays null, otherwise the pointer
itself when the subtype test succeeds and null when it fails.  Total. -/
def dynCastOrNull (T : NodeSubtype) (p : Nat) : Nat :=
  if p == 0 then 0 else if T.pred p then p else 0

/-- SILLocation::LocationKind constants. -/
def NoneKind : Nat := 0

def RegularKind : Nat := 1

def ReturnKind : Nat := 2

def ImplicitReturnKind : Nat := 3

def InlinedKind : Nat := 4

def MandatoryInlinedKind : Nat := 5

def CleanupKind : Nat := 6

def ArtificialUnreachableKind : Nat := 7

def SILFileKind : Nat := 8

/-- Bit layout of KindData: the kind lives in bits 0-3. -/
def BaseMask : Nat := 15

def AutoGeneratedBit : Nat := 5

def PointsToStartBit : Nat := 6

def PointsToEndBit : Nat := 7

def IsInTopLevel : Nat := 8

def IsInPrologue : Nat := 9

/-- The SILLocation state: AST node reference, raw SIL file location and the
packed kind-and-flags word. -/
structure SILLocation where
  ASTNode : ASTNodeTy := {}
  SILFileSourceLoc : Nat := 0
  KindData : Nat
  deriving DecidableEq

/-- SILLocation(LocationKind K): empty payload, KindData = K. -/
def SILLocation.ofKind (K : Nat) : SILLocation :=
  { KindData := K }

/-- The node-taking constructors SILLocation(Stmt, K), SILLocation(Expr, K),
SILLocation(Decl, K), SILLocation(Pattern, K), merged over the family. -/
def SILLocation.ofNode (f : NodeFamily) (p : Nat) (K : Nat) : SILLocation :=
  { ASTNode := { family := f, ptr := p }, KindData := K }

/-- The flag-taking constructors: KindData = unsigned(K) | Flags. -/
def SILLocation.ofNodeFlags (f : NodeFamily) (p : Nat) (K : Nat) (Flags : Nat) : SILLocation :=
  { ASTNode := { family := f, ptr := p }, KindData := K ||| Flags }

/-- SILLocation::getKind: the stored kind, masked from the flag bits. -/
def SILLocation.getKind (L : SILLocation) : Nat :=
  L.KindData &&& BaseMask

/-- SILLocation::setKind: KindData |= (K & BaseMask).  Note the source ORs the
new kind bits over the old ones instead of replacing them. -/
def SILLocation.setKind (L : SILLocation) (K : Nat) : SILLocation :=
  { L with KindData := L.KindData ||| (K &&& BaseMask) }

/-- SILLocation::getSpecialFlags: the packed word with the kind bits cleared
(32-bit complement of BaseMask). -/
def SILLocation.getSpecialFlags (L : SILLocation) : Nat :=
  L.KindData &&& 0xFFFFFFF0

/-- SILLocation::isNull: no AST node and an invalid SIL file location. -/
def SILLocation.isNull (L : SILLocation) : Bool :=
  L.ASTNode.isNull && (L.SILFileSourceLoc == 0)

/-- SILLocation::hasASTLocation. -/
def SILLocation.hasASTLocation (L : SILLocation) : Bool :=
  !L.ASTNode.isNull

/-- SILLocation::markAutoGenerated: KindData |= (1 << AutoGeneratedBit). -/
def SILLocation.markAutoGenerated (L : SILLocation) : SILLocation :=
  { L with KindData := L.KindData ||| (1 <<< AutoGeneratedBit) }

/-- SILLocation::isAutoGenerated: KindData & (1 << AutoGeneratedBit). -/
def SILLocation.isAutoGenerated (L : SILLocation) : Bool :=
  L.KindData &&& (1 <<< AutoGeneratedBit) != 0

/-- SILLocation::pointToStart. -/
def SILLocation.pointToStart (L : SILLocation) : SILLocation :=
  { L with KindData := L.KindData ||| (1 <<< PointsToStartBit) }

/-- SILLocation::pointToEnd. -/
def SILLocation.pointToEnd (L : SILLocation) : SILLocation :=
  { L with KindData := L.KindData ||| (1 <<< PointsToEndBit) }

/-- SILLocation::markAsInTopLevel. -/
def SILLocation.markAsInTopLevel (L : SILLocation) : SILLocation :=
  { L with KindData := L.KindData ||| (1 <<< IsInTopLevel) }

/-- SILLocation::isInTopLevel. -/
def SILLocation.isInTopLevel (L : SILLocation) : Bool :=
  L.KindData &&& (1 <<< IsInTopLevel) != 0

/-- SILLocation::markAsPrologue. -/
def SILLocation.markAsPrologue (L : SILLocation) : SILLocation :=
  { L with KindData := L.KindData ||| (1 <<< IsInPrologue) }

/-- SILLocation::isInPrologue. -/
def SILLocation.isInPrologue (L : SILLocation) : Bool :=
  L.KindData &&& (1 <<< IsInPrologue) != 0

/-- SILLocation::alwaysPointsToStart. -/
def SILLocation.alwaysPointsToStart (L : SILLocation) : Bool :=
  L.KindData &&& (1 <<< PointsToStartBit) != 0

/-- SILLocation::alwaysPointsToEnd. -/
def SILLocation.alwaysPointsToEnd (L : SILLocation) : Bool :=
  L.KindData &&& (1 <<< PointsToEndBit) != 0

/-- SILLocation::is of a view type T dispatches to T::isKind. -/
def SILLocation.is (L : SILLocation) (isKind : SILLocation → Bool) : Bool :=
  isKind L

/-- SILLocation::castTo of a view type: asserts T::isKind (none models the
fatal assertion failure), then default-constructs a T and assigns this whole
location over its SILLocation subobject, so the returned view carries exactly
this location's state. -/
def SILLocation.castTo (L : SILLocation) (isKind : SILLocation → Bool) : Option SILLocation :=
  if isKind L then some L else none

/-- SILLocation::getAs of a view type: the empty Optional when T::isKind
fails, otherwise a view whose SILLocation subobject is assigned from this
location.  Total by design. -/
def SILLocation.getAs (L : SILLocation) (isKind : SILLocation → Bool) : Option SILLocation :=
  if isKind L then some L else none

/-- SILLocation::getNodeAs(Node): dyn_cast_or_null applied to Node.dyn_cast of
the base family pointer type.  Total; 0 models the null result. -/
def SILLocation.getNodeAs (L : SILLocation) (T : NodeSubtype) (Node : ASTNodeTy) : Nat :=
  dynCastOrNull T (Node.dynCastFam T.family)

/-- SILLocation::isNode(Node): tests the MEMBER ASTNode's discriminator, then
fetches the pointer from the PARAMETER Node and runs isa on it.  isa on a
null pointer is fatal (none); with a mismatched discriminator the result is
false. -/
def SILLocation.isNode (L : SILLocation) (T : NodeSubtype) (Node : ASTNodeTy) : Option Bool :=
  if L.ASTNode.isFam T.family then
    match Node.getFam T.family with
    | some p => isaNode T p
    | none => none
  else
    some false

/-- SILLocation::castNodeTo(Node): cast applied to Node.get of the base family
pointer; both the family assert and the isa inside cast can be fatal. -/
def SILLocation.castNodeTo (L : SILLocation) (T : NodeSubtype) (Node : ASTNodeTy) : Option Nat :=
  match Node.getFam T.family with
  | some p =>
    match isaNode T p with
    | some true => some p
    | _ => none
  | none => none

/-- SILLocation::getAsASTNode. -/
def SILLocation.getAsASTNode (L : SILLocation) (T : NodeSubtype) : Nat :=
  L.getNodeAs T L.ASTNode

/-- SILLocation::isASTNode. -/
def SILLocation.isASTNode (L : SILLocation) (T : NodeSubtype) : Option Bool :=
  L.isNode T L.ASTNode

/-- SILLocation::castToASTNode. -/
def SILLocation.castToASTNode (L : SILLocation) (T : NodeSubtype) : Option Nat :=
  L.castNodeTo T L.ASTNode

/-- SILLocation::operator==: packed kind-and-flags word, opaque node reference
(pointer identity, not structural equality) and raw SIL file location must all
match. -/
def SILLocation.opEq (L R : SILLocation) : Bool :=
  (L.KindData == R.KindData) &&
  (L.ASTNode.getOpaqueValue == R.ASTNode.getOpaqueValue) &&
  (L.SILFileSourceLoc == R.SILFileSourceLoc)

/-- RegularLocation::isKind. -/
def RegularLocation.isKind (L : SILLocation) : Bool :=
  L.getKind == RegularKind

/-- ReturnLocation::isKind. -/
def ReturnLocation.isKind (L : SILLocation) : Bool :=
  L.getKind == ReturnKind

/-- ImplicitReturnLocation::isKind. -/
def ImplicitReturnLocation.isKind (L : SILLocation) : Bool :=
  L.getKind == ImplicitReturnKind

/-- InlinedLocation::isKind. -/
def InlinedLocation.isKind (L : SILLocation) : Bool :=
  L.getKind == InlinedKind

/-- MandatoryInlinedLocation::isKind. -/
def MandatoryInlinedLocation.isKind (L : SILLocation) : Bool :=
  L.getKind == MandatoryInlinedKind

/-- CleanupLocation::isKind. -/
def CleanupLocation.isKind (L : SILLocation) : Bool :=
  L.getKind == CleanupKind

/-- ArtificialUnreachableLocation::isKind. -/
def ArtificialUnreachableLocation.isKind (L : SILLocation) : Bool :=
  L.getKind == ArtificialUnreachableKind

/-- SILFileLocation::isKind. -/
def SILFileLocation.isKind (L : SILLocation) : Bool :=
  L.getKind == SILFileKind

/-- RegularLocation(Expr E). -/
def RegularLocation.ofExpr (p : Nat) : SILLocation :=
  SILLocation.ofNode .expr p RegularKind

/-- RegularLocation::getModuleLocation: private default constructor (Regular
kind, empty payload) followed by markAsInTopLevel. -/
def RegularLocation.getModuleLocation : SILLocation :=
  (SILLocation.ofKind RegularKind).markAsInTopLevel

/-- RegularLocation::getAutoGeneratedLocation. -/
def RegularLocation.getAutoGeneratedLocation : SILLocation :=
  (SILLocation.ofKind RegularKind).markAutoGenerated

/-- InlinedLocation(Expr CallSite). -/
def InlinedLocation.ofExpr (p : Nat) : SILLocation :=
  SILLocation.ofNode .expr p InlinedKind

/-- The ArtificialUnreachableLocation public constructor: kind set, no
payload. -/
def ArtificialUnreachableLocation : SILLocation :=
  SILLocation.ofKind ArtificialUnreachableKind

/-- SILFileLocation(SourceLoc L): raw SIL file location only. -/
def SILFileLocation.ofLoc (l : Nat) : SILLocation :=
  { SILFileSourceLoc := l, KindData := SILFileKind }

/-- The ambient AST model: the family-internal dynamic subtype facts consumed
by the node subtypes this header names. -/
structure ASTModel where
  isValueDecl : Nat → Bool
  isPatternBindingDecl : Nat → Bool

/-- The node subtype Expr: base family expr; isa of Expr on an Expr pointer is
the trivial same-class case, true on every non-null node. -/
def ExprT : NodeSubtype :=
  { family := .expr, pred := fun _ => true }

/-- The node subtype Stmt: base family stmt, trivial subtype test. -/
def StmtT : NodeSubtype :=
  { family := .stmt, pred := fun _ => true }

/-- The node subtype ValueDecl: base family decl, dynamic test from the AST
model. -/
def ValueDeclT (M : ASTModel) : NodeSubtype :=
  { family := .decl, pred := M.isValueDecl }

/-- The node subtype PatternBindingDecl: base family decl, dynamic test from
the AST model. -/
def PatternBindingDeclT (M : ASTModel) : NodeSubtype :=
  { family := .decl, pred := M.isPatternBindingDecl }

/-- ImplicitReturnLocation::getImplicitReturnLoc: asserts (left to right,
short-circuit) that L references an expression, a ValueDecl, a
PatternBindingDecl, or is null and in the top level; then rewrites the kind
through setKind and returns the location.  none models a fatal failure:
either the assert itself failing or a crash inside one of the probes. -/
def ImplicitReturnLocation.getImplicitReturnLoc (M : ASTModel) (L : SILLocation) :
    Option SILLocation :=
  match L.isASTNode ExprT with
  | none => none
  | some true => some (L.setKind ImplicitReturnKind)
  | some false =>
    match L.isASTNode (ValueDeclT M) with
    | none => none
    | some true => some (L.setKind ImplicitReturnKind)
    | some false =>
      match L.isASTNode (PatternBindingDeclT M) with
      | none => none
      | some true => some (L.setKind ImplicitReturnKind)
      | some false =>
        if L.isNull && L.isInTopLevel then some (L.setKind ImplicitReturnKind)
        else none

/-- The five public flag mutators, as data so that sequences of them can be
quantified over. -/
inductive FlagSetter
  | autoGenerated
  | toStart
  | toEnd
  | inTopLevel
  | prologue
  deriving DecidableEq

/-- The bit each mutator sets. -/
def FlagSetter.bit : FlagSetter → Nat
  | .autoGenerated => AutoGeneratedBit
  | .toStart => PointsToStartBit
  | .toEnd => PointsToEndBit
  | .inTopLevel => IsInTopLevel
  | .prologue => IsInPrologue

/-- Run a mutator on a location. -/
def FlagSetter.apply : FlagSetter → SILLocation → SILLocation
  | .autoGenerated, L => L.markAutoGenerated
  | .toStart, L => L.pointToStart
  | .toEnd, L => L.pointToEnd
  | .inTopLevel, L => L.markAsInTopLevel
  | .prologue, L => L.markAsPrologue

/-- The flag accessor paired with each mutator. -/
def FlagSetter.observe : FlagSetter → SILLocation → Bool
  | .autoGenerated, L => L.isAutoGenerated
  | .toStart, L => L.alwaysPointsToStart
  | .toEnd, L => L.alwaysPointsToEnd
  | .inTopLevel, L => L.isInTopLevel
  | .prologue, L => L.isInPrologue

/-- Run a list of mutators left to right. -/
def applyAll (l : List FlagSetter) (L : SILLocation) : SILLocation :=
  l.foldl (fun acc s => s.apply acc) L

/-- The positional accessors of the externally owned AST nodes: start and end
of a node's source range and its default representative position. -/
structure PosModel where
  startLoc : ASTNodeTy → Nat
  endLoc : ASTNodeTy → Nat
  reprLoc : ASTNodeTy → Nat

/-- Modelled from the spec: SILLocation::getSourceLoc is declared in this
header but defined in the missing lib/SIL/SILLocation.cpp.  Per the spec,
with a node present the PointsToStart and PointsToEnd overrides force the
node's start and end position respectively, bypassing the node's normal
representative position; with no node the raw SIL file location is returned
directly. -/
def SILLocation.getSourceLoc (P : PosModel) (L : SILLocation) : Nat :=
  if L.ASTNode.isNull then L.SILFileSourceLoc
  else if L.alwaysPointsToStart then P.startLoc L.ASTNode
  else if L.alwaysPointsToEnd then P.endLoc L.ASTNode
  else P.reprLoc L.ASTNode

/-- Modelled from the spec: SILLocation::getStartSourceLoc (defined in the
missing lib/SIL/SILLocation.cpp) returns the node's start position, except
that a set PointsToEnd override collapses every query to the end position;
with no node the raw SIL file location is returned. -/
def SILLocation.getStartSourceLoc (P : PosModel) (L : SILLocation) : Nat :=
  if L.ASTNode.isNull then L.SILFileSourceLoc
  else if L.alwaysPointsToEnd then P.endLoc L.ASTNode
  else P.startLoc L.ASTNode

/-- Modelled from the spec: SILLocation::getEndSourceLoc (defined in the
missing lib/SIL/SILLocation.cpp) returns the node's end position, except that
a set PointsToStart override collapses every query to the start position;
with no node the raw SIL file location is returned. -/
def SILLocation.getEndSourceLoc (P : PosModel) (L : SILLocation) : Nat :=
  if L.ASTNode.isNull then L.SILFileSourceLoc
  else if L.alwaysPointsToStart then P.startLoc L.ASTNode
  else P.endLoc L.ASTNode

/-- SILLocation::getSourceRange: the pair of start and end source locations
(this one is defined in the header). -/
def SILLocation.getSourceRange (P : PosModel) (L : SILLocation) : Nat × Nat :=
  (L.getStartSourceLoc P, L.getEndSourceLoc P)

/-- Invariant of the packed word on every constructor-reachable location:
the kind lives in bits 0-3 (bit 4 stays clear) and the flags in bits 5-9
(nothing above bit 9). -/
def SILLocation.wellFormed (L : SILLocation) : Prop :=
  L.KindData % 32 < 16 ∧ L.KindData < 1024

/-- A concrete AST model for witnesses and counterexamples. -/
def M0 : ASTModel :=
  { isValueDecl := fun _ => false, isPatternBindingDecl := fun _ => false }

/-- A concrete positional model for witnesses. -/
def P0 : PosModel :=
  { startLoc := fun n => 10 * n.ptr + 1
    endLoc := fun n => 10 * n.ptr + 2
    reprLoc := fun n => 10 * n.ptr + 3 }

/-! ### Bit-manipulation helper lemmas -/

theorem and_one_shiftLeft (m i : Nat) :
    m &&& (1 <<< i) = if m.testBit i then 1 <<< i else 0 := by
  rw [Nat.one_shiftLeft]
  cases hm : m.testBit i with
  | true =>
    simp only [if_pos]
    apply Nat.eq_of_testBit_eq
    intro k
    rw [Nat.testBit_and, Nat.testBit_two_pow]
    by_cases h : i = k
    · subst h; simp [hm]
    · simp [h]
  | false =>
    show m &&& 2 ^ i = 0
    apply Nat.eq_of_testBit_eq
    intro k
    rw [Nat.testBit_and, Nat.testBit_two_pow]
    by_cases h : i = k
    · subst h; simp [hm]
    · simp [h]

theorem and_one_shiftLeft_ne_zero (m i : Nat) :
    (m &&& (1 <<< i) != 0) = m.testBit i := by
  rw [and_one_shiftLeft]
  cases hm : m.testBit i with
  | true =>
    simp only [if_pos, bne_iff_ne, ne_eq]
    rw [Nat.one_shiftLeft]
    simp [Nat.pos_iff_ne_zero.mp (Nat.two_pow_pos i)]
  | false =>
    rfl

theorem testBit_iff_div_mod (m i : Nat) :
    m.testBit i = true ↔ m / 2 ^ i % 2 = 1 := by
  rw [Nat.testBit_to_div_mod]
  exact decide_eq_true_iff

theorem testBit_or_one_shiftLeft (m i k : Nat) :
    (m ||| (1 <<< i)).testBit k = (m.testBit k || decide (i = k)) := by
  rw [Nat.testBit_or, Nat.one_shiftLeft, Nat.testBit_two_pow]

theorem fifteen_lt_two_pow {k : Nat} (hk : 4 ≤ k) : (15 : Nat) < 2 ^ k := by
  have h : (2 : Nat) ^ 4 ≤ 2 ^ k := Nat.pow_le_pow_right (by omega) hk
  omega

theorem or_high_and_mask (m i : Nat) (h : 4 ≤ i) :
    (m ||| (1 <<< i)) &&& 15 = m &&& 15 := by
  apply Nat.eq_of_testBit_eq
  intro k
  rw [Nat.testBit_and, Nat.testBit_and, testBit_or_one_shiftLeft]
  by_cases hk : k < 4
  · have hik : ¬ (i = k) := by omega
    simp [hik]
  · have h15 : (15 : Nat).testBit k = false :=
      Nat.testBit_lt_two_pow (fifteen_lt_two_pow (by omega))
    simp [h15]

theorem or_low_and_mask (m c : Nat) (hc : c < 16) :
    (m ||| c) &&& 15 = (m &&& 15) ||| c := by
  apply Nat.eq_of_testBit_eq
  intro k
  rw [Nat.testBit_and, Nat.testBit_or, Nat.testBit_or, Nat.testBit_and]
  by_cases hk : k < 4
  · have h15 : (15 : Nat).testBit k = true := by
      interval_cases k <;> decide
    rw [h15]
    cases m.testBit k <;> cases c.testBit k <;> decide
  · have h15 : (15 : Nat).testBit k = false :=
      Nat.testBit_lt_two_pow (fifteen_lt_two_pow (by omega))
    have hck : c.testBit k = false := by
      apply Nat.testBit_lt_two_pow
      have := fifteen_lt_two_pow (k := k) (by omega)
      omega
    rw [h15, hck]
    simp

theorem or_low_and_high (m c i : Nat) (hc : c < 16) (h : 4 ≤ i) :
    (m ||| c) &&& (1 <<< i) = m &&& (1 <<< i) := by
  apply Nat.eq_of_testBit_eq
  intro k
  rw [Nat.testBit_and, Nat.testBit_and, Nat.testBit_or]
  by_cases hik : i = k
  · subst hik
    have hck : c.testBit i = false := by
      apply Nat.testBit_lt_two_pow
      have := fifteen_lt_two_pow (k := i) h
      omega
    rw [hck]
    simp
  · have hmask : (1 <<< i).testBit k = false := by
      rw [Nat.one_shiftLeft]
      exact Nat.testBit_two_pow_of_ne hik
    rw [hmask]
    simp

theorem and_fifteen_eq_mod (m : Nat) : m &&& 15 = m % 16 := by
  have h := Nat.and_pow_two_sub_one_eq_mod m 4
  norm_num at h
  exact h

theorem getOpaqueValue_inj (n m : ASTNodeTy) :
    n.getOpaqueValue = m.getOpaqueValue ↔ n = m := by
  cases n with
  | mk nf np =>
    cases m with
    | mk mf mp =>
      simp only [ASTNodeTy.getOpaqueValue, ASTNodeTy.mk.injEq]
      cases nf <;> cases mf <;> simp [NodeFamily.tag] <;> omega

/-! ### Flag mutator and accessor bridges -/

theorem FlagSetter.apply_eq (s : FlagSetter) (L : SILLocation) :
    s.apply L = { L with KindData := L.KindData ||| (1 <<< s.bit) } := by
  cases s <;> rfl

theorem FlagSetter.observe_eq (s : FlagSetter) (L : SILLocation) :
    s.observe L = (L.KindData &&& (1 <<< s.bit) != 0) := by
  cases s <;> rfl

theorem FlagSetter.bit_range (s : FlagSetter) : 5 ≤ s.bit ∧ s.bit ≤ 9 := by
  cases s <;> simp [FlagSetter.bit, AutoGeneratedBit, PointsToStartBit, PointsToEndBit,
    IsInTopLevel, IsInPrologue]

theorem FlagSetter.bit_inj {s t : FlagSetter} (h : s ≠ t) : s.bit ≠ t.bit := by
  cases s <;> cases t <;> simp_all [FlagSetter.bit, AutoGeneratedBit, PointsToStartBit,
    PointsToEndBit, IsInTopLevel, IsInPrologue]

theorem observe_apply_self (s : FlagSetter) (L : SILLocation) :
    s.observe (s.apply L) = true := by
  rw [FlagSetter.apply_eq, FlagSetter.observe_eq]
  show ((L.KindData ||| 1 <<< s.bit) &&& (1 <<< s.bit) != 0) = true
  rw [and_one_shiftLeft_ne_zero, testBit_or_one_shiftLeft]
  simp

theorem observe_apply_other {s t : FlagSetter} (h : t ≠ s) (L : SILLocation) :
    t.observe (s.apply L) = t.observe L := by
  rw [FlagSetter.apply_eq, FlagSetter.observe_eq, FlagSetter.observe_eq]
  show ((L.KindData ||| 1 <<< s.bit) &&& (1 <<< t.bit) != 0)
      = (L.KindData &&& (1 <<< t.bit) != 0)
  rw [and_one_shiftLeft_ne_zero, and_one_shiftLeft_ne_zero, testBit_or_one_shiftLeft]
  have hbit : ¬ (s.bit = t.bit) := fun hh => FlagSetter.bit_inj h hh.symm
  simp [hbit]

theorem getKind_apply (s : FlagSetter) (L : SILLocation) :
    (s.apply L).getKind = L.getKind := by
  rw [FlagSetter.apply_eq]
  have h5 : 4 ≤ s.bit := by have := s.bit_range; omega
  show (L.KindData ||| 1 <<< s.bit) &&& 15 = L.KindData &&& 15
  exact or_high_and_mask _ _ h5

theorem ASTNode_apply (s : FlagSetter) (L : SILLocation) :
    (s.apply L).ASTNode = L.ASTNode := by
  rw [FlagSetter.apply_eq]

theorem SILFileSourceLoc_apply (s : FlagSetter) (L : SILLocation) :
    (s.apply L).SILFileSourceLoc = L.SILFileSourceLoc := by
  rw [FlagSetter.apply_eq]

theorem isNull_apply (s : FlagSetter) (L : SILLocation) :
    (s.apply L).isNull = L.isNull := by
  rw [FlagSetter.apply_eq]
  rfl

theorem apply_idem (s : FlagSetter) (L : SILLocation) :
    s.apply (s.apply L) = s.apply L := by
  rw [FlagSetter.apply_eq, FlagSetter.apply_eq]
  show ({ L with KindData := (L.KindData ||| 1 <<< s.bit) ||| 1 <<< s.bit } : SILLocation)
      = { L with KindData := L.KindData ||| 1 <<< s.bit }
  rw [Nat.or_assoc, Nat.or_self]

/-! ### Claim theorems -/

/-- C4: each of the five flag setters (markAutoGenerated, pointToStart,
pointToEnd, markAsInTopLevel, markAsPrologue) sets exactly its own flag bit,
is idempotent, changes no observable state other than its own flag (kind,
node reference, raw position and the other four flags are untouched), and is
monotonic: no setter ever clears a flag set before. -/
theorem flagSetters_spec (L : SILLocation) (s : FlagSetter) :
    s.apply (s.apply L) = s.apply L ∧
    s.observe (s.apply L) = true ∧
    (∀ t : FlagSetter, t ≠ s → t.observe (s.apply L) = t.observe L) ∧
    (s.apply L).getKind = L.getKind ∧
    (s.apply L).ASTNode = L.ASTNode ∧
    (s.apply L).SILFileSourceLoc = L.SILFileSourceLoc ∧
    (∀ t : FlagSetter, t.observe L = true → t.observe (s.apply L) = true) := by
  refine ⟨apply_idem s L, observe_apply_self s L, fun t ht => observe_apply_other ht L,
    getKind_apply s L, ASTNode_apply s L, SILFileSourceLoc_apply s L, fun t ht => ?_⟩
  by_cases h : t = s
  · subst h; exact observe_apply_self t L
  · rw [observe_apply_other h L]; exact ht

/-- C4 witness: on the regular kind with no flags, marking auto-generated
leaves points-to-start unchanged, and on the module location it keeps the
top-level flag set. -/
theorem flagSetters_spec_witness :
    FlagSetter.toStart.observe (FlagSetter.autoGenerated.apply (SILLocation.ofKind RegularKind))
      = FlagSetter.toStart.observe (SILLocation.ofKind RegularKind) ∧
    FlagSetter.inTopLevel.observe
      (FlagSetter.autoGenerated.apply RegularLocation.getModuleLocation) = true :=
  ⟨(flagSetters_spec (SILLocation.ofKind RegularKind) .autoGenerated).2.2.1 .toStart (by decide),
   (flagSetters_spec RegularLocation.getModuleLocation .autoGenerated).2.2.2.2.2.2 .inTopLevel
     (by decide)⟩

/-- C9: the kind is fixed at construction: any sequence of the five flag
setters leaves getKind unchanged (and the payload fields with it); the only
kind-rewriting operation is setKind, used solely by the ImplicitReturn
conversion factory. -/
theorem kind_immutable_spec (l : List FlagSetter) (L : SILLocation) :
    (applyAll l L).getKind = L.getKind ∧
    (applyAll l L).ASTNode = L.ASTNode ∧
    (applyAll l L).SILFileSourceLoc = L.SILFileSourceLoc := by
  induction l generalizing L with
  | nil => exact ⟨rfl, rfl, rfl⟩
  | cons s l ih =>
    have h : applyAll (s :: l) L = applyAll l (s.apply L) := rfl
    rw [h]
    obtain ⟨h1, h2, h3⟩ := ih (s.apply L)
    exact ⟨h1.trans (getKind_apply s L), h2.trans (ASTNode_apply s L),
      h3.trans (SILFileSourceLoc_apply s L)⟩

/-- C5: isNull holds exactly when the node reference is empty and the raw SIL
file position is invalid, and it is insensitive to the kind and to every
flag: flag setters, setKind, and any change touching only KindData leave it
unchanged. -/
theorem isNull_spec (L : SILLocation) :
    (L.isNull = true ↔ (L.ASTNode.ptr = 0 ∧ L.SILFileSourceLoc = 0)) ∧
    (∀ s : FlagSetter, (s.apply L).isNull = L.isNull) ∧
    (∀ K : Nat, (L.setKind K).isNull = L.isNull) ∧
    (∀ R : SILLocation, R.ASTNode = L.ASTNode → R.SILFileSourceLoc = L.SILFileSourceLoc →
      R.isNull = L.isNull) := by
  refine ⟨?_, fun s => isNull_apply s L, fun K => rfl, fun R h1 h2 => ?_⟩
  · simp [SILLocation.isNull, ASTNodeTy.isNull]
  · simp [SILLocation.isNull, h1, h2]

/-- C5 witness: the module location and an artificial-unreachable location
share payload, so isNull agrees on them, and the module location is null. -/
theorem isNull_spec_witness :
    RegularLocation.getModuleLocation.isNull = SILLocation.isNull ArtificialUnreachableLocation ∧
    RegularLocation.getModuleLocation.isNull = true :=
  ⟨(isNull_spec ArtificialUnreachableLocation).2.2.2 RegularLocation.getModuleLocation rfl rfl,
   ((isNull_spec RegularLocation.getModuleLocation).1).mpr ⟨rfl, rfl⟩⟩

/-- C3: for each of the eight views, membership via is holds exactly when
getKind equals the view's designated kind, and the optional narrowing getAs
is populated exactly when the membership test holds. -/
theorem is_getAs_spec (L : SILLocation) :
    (L.is RegularLocation.isKind = true ↔ L.getKind = RegularKind) ∧
    (L.is ReturnLocation.isKind = true ↔ L.getKind = ReturnKind) ∧
    (L.is ImplicitReturnLocation.isKind = true ↔ L.getKind = ImplicitReturnKind) ∧
    (L.is InlinedLocation.isKind = true ↔ L.getKind = InlinedKind) ∧
    (L.is MandatoryInlinedLocation.isKind = true ↔ L.getKind = MandatoryInlinedKind) ∧
    (L.is CleanupLocation.isKind = true ↔ L.getKind = CleanupKind) ∧
    (L.is ArtificialUnreachableLocation.isKind = true ↔ L.getKind = ArtificialUnreachableKind) ∧
    (L.is SILFileLocation.isKind = true ↔ L.getKind = SILFileKind) ∧
    (∀ isKind : SILLocation → Bool, (L.getAs isKind).isSome = L.is isKind) := by
  refine ⟨?_, ?_, ?_, ?_, ?_, ?_, ?_, ?_, fun p => ?_⟩
  · simp [SILLocation.is, RegularLocation.isKind]
  · simp [SILLocation.is, ReturnLocation.isKind]
  · simp [SILLocation.is, ImplicitReturnLocation.isKind]
  · simp [SILLocation.is, InlinedLocation.isKind]
  · simp [SILLocation.is, MandatoryInlinedLocation.isKind]
  · simp [SILLocation.is, CleanupLocation.isKind]
  · simp [SILLocation.is, ArtificialUnreachableLocation.isKind]
  · simp [SILLocation.is, SILFileLocation.isKind]
  · by_cases h : p L = true <;> simp [SILLocation.getAs, SILLocation.is, h]

/-- C8: the ArtificialUnreachableLocation constructor yields a null location
of the ArtificialUnreachable kind, and for any location of a different kind
the probe is false, the optional narrowing empty, and the asserting
narrowing a fatal failure. -/
theorem artificialUnreachable_spec (L : SILLocation)
    (h : L.getKind ≠ ArtificialUnreachableKind) :
    SILLocation.isNull ArtificialUnreachableLocation = true ∧
    SILLocation.getKind ArtificialUnreachableLocation = ArtificialUnreachableKind ∧
    L.is ArtificialUnreachableLocation.isKind = false ∧
    L.getAs ArtificialUnreachableLocation.isKind = none ∧
    L.castTo ArtificialUnreachableLocation.isKind = none := by
  have hk : ArtificialUnreachableLocation.isKind L = false := by
    simp [ArtificialUnreachableLocation.isKind, h]
  refine ⟨by decide, by decide, hk, ?_, ?_⟩
  · simp [SILLocation.getAs, hk]
  · simp [SILLocation.castTo, hk]

/-- C8 witness: instantiated at the module location, whose kind is Regular. -/
theorem artificialUnreachable_spec_witness :
    RegularLocation.getModuleLocation.castTo ArtificialUnreachableLocation.isKind = none :=
  (artificialUnreachable_spec RegularLocation.getModuleLocation (by decide)).2.2.2.2

/-- C10: narrowing is representation-preserving: when the view predicate
holds, castTo and getAs both return exactly this location, and the returned
location is equal to the original under operator==. -/
theorem narrowing_preserves_spec (L : SILLocation) (isKind : SILLocation → Bool)
    (h : isKind L = true) :
    L.castTo isKind = some L ∧ L.getAs isKind = some L ∧
    (∀ R : SILLocation, L.castTo isKind = some R → SILLocation.opEq R L = true) := by
  refine ⟨by simp [SILLocation.castTo, h], by simp [SILLocation.getAs, h], fun R hR => ?_⟩
  simp [SILLocation.castTo, h] at hR
  subst hR
  simp [SILLocation.opEq]

/-- C10 witness: narrowing the module location to the Regular view. -/
theorem narrowing_preserves_spec_witness :
    SILLocation.castTo RegularLocation.getModuleLocation RegularLocation.isKind
      = some RegularLocation.getModuleLocation :=
  (narrowing_preserves_spec RegularLocation.getModuleLocation RegularLocation.isKind
    (by decide)).1

/-- C2 (amended): getAsASTNode is total and returns the node exactly when the
populated family matches and the subtype test passes, null otherwise
(including the empty reference); isASTNode likewise returns false on a family
mismatch and decides the subtype test on a match — EXCEPT that when the
node reference's discriminator matches T's family while the pointer is null
(in particular on an empty reference probed with a statement-family T, since
an empty pointer union reports the first member's family), the internal isa
runs on a null pointer and the probe fails fatally instead of returning
false. -/
theorem astNodeProbes_spec (L : SILLocation) (T : NodeSubtype) :
    (L.isASTNode T = none ↔ (L.ASTNode.family = T.family ∧ L.ASTNode.ptr = 0)) ∧
    (L.isASTNode T = some true ↔
      (L.ASTNode.family = T.family ∧ L.ASTNode.ptr ≠ 0 ∧ T.pred L.ASTNode.ptr = true)) ∧
    (L.getAsASTNode T =
      if (L.ASTNode.family == T.family) && (L.ASTNode.ptr != 0) && T.pred L.ASTNode.ptr
      then L.ASTNode.ptr else 0) := by
  refine ⟨?_, ?_, ?_⟩
  · by_cases hf : L.ASTNode.family = T.family <;> by_cases hp : L.ASTNode.ptr = 0 <;>
      simp [SILLocation.isASTNode, SILLocation.isNode, ASTNodeTy.isFam, ASTNodeTy.getFam,
        isaNode, hf, hp]
  · by_cases hf : L.ASTNode.family = T.family <;> by_cases hp : L.ASTNode.ptr = 0 <;>
      simp [SILLocation.isASTNode, SILLocation.isNode, ASTNodeTy.isFam, ASTNodeTy.getFam,
        isaNode, hf, hp]
  · by_cases hf : L.ASTNode.family = T.family <;> by_cases hp : L.ASTNode.ptr = 0 <;>
      by_cases hq : T.pred L.ASTNode.ptr = true <;>
      simp [SILLocation.getAsASTNode, SILLocation.getNodeAs, ASTNodeTy.dynCastFam,
        dynCastOrNull, hf, hp, hq]

/-- C2 counterexample: the claim says the probes never fail and isASTNode is
false on an empty node reference; but probing the null module location with
the statement-family subtype Stmt makes isNode pass the discriminator check
(an empty pointer union reports the statement family) and then run isa on the
null pointer — a fatal failure (none), not false. -/
theorem astNodeProbes_counterexample :
    RegularLocation.getModuleLocation.isNull = true ∧
    RegularLocation.getModuleLocation.isASTNode StmtT = none ∧
    RegularLocation.getModuleLocation.isASTNode StmtT ≠ some false := by
  refine ⟨rfl, rfl, ?_⟩
  intro h
  rw [show RegularLocation.getModuleLocation.isASTNode StmtT = (none : Option Bool) from rfl] at h
  exact Option.noConfusion h

theorem getKind_setKind (L : SILLocation) (K : Nat) (hK : K < 16) :
    (L.setKind K).getKind = L.getKind ||| K := by
  show (L.KindData ||| (K &&& 15)) &&& 15 = (L.KindData &&& 15) ||| K
  have hK15 : K &&& 15 = K := by rw [and_fifteen_eq_mod]; omega
  rw [hK15, or_low_and_mask _ _ hK]

theorem observe_setKind (s : FlagSetter) (L : SILLocation) (K : Nat) :
    s.observe (L.setKind K) = s.observe L := by
  rw [FlagSetter.observe_eq, FlagSetter.observe_eq]
  show ((L.KindData ||| (K &&& 15)) &&& (1 <<< s.bit) != 0)
      = (L.KindData &&& (1 <<< s.bit) != 0)
  have h5 : 4 ≤ s.bit := by have := s.bit_range; omega
  have hc : K &&& 15 < 16 := by have := and_fifteen_eq_mod K; omega
  rw [or_low_and_high _ _ _ hc h5]

/-- C1 (amended): on a tag satisfying the factory's precondition the
conversion preserves every flag and the whole payload (node reference and raw
position) and touches only the packed kind bits — but because setKind ORs the
new kind over the old one, the result kind is ImplicitReturn exactly when the
input kind's bits are subsumed by ImplicitReturn's (kinds None, Regular,
Return, ImplicitReturn, i.e. getKind lor ImplicitReturn = ImplicitReturn);
a tag referencing a statement violates the precondition and fails fatally. -/
theorem getImplicitReturnLoc_spec (M : ASTModel) (L : SILLocation)
    (hk : L.getKind ||| ImplicitReturnKind = ImplicitReturnKind) :
    (∀ R : SILLocation, ImplicitReturnLocation.getImplicitReturnLoc M L = some R →
      R.getKind = ImplicitReturnKind ∧
      (∀ s : FlagSetter, s.observe R = s.observe L) ∧
      R.ASTNode = L.ASTNode ∧
      R.SILFileSourceLoc = L.SILFileSourceLoc) ∧
    (L.ASTNode.family = NodeFamily.expr → L.ASTNode.ptr ≠ 0 →
      ImplicitReturnLocation.getImplicitReturnLoc M L
        = some (L.setKind ImplicitReturnKind)) ∧
    (L.ASTNode.family = NodeFamily.stmt → L.ASTNode.ptr ≠ 0 →
      ImplicitReturnLocation.getImplicitReturnLoc M L = none) := by
  have hsome : ∀ R : SILLocation, ImplicitReturnLocation.getImplicitReturnLoc M L = some R →
      R = L.setKind ImplicitReturnKind := by
    intro R hR
    unfold ImplicitReturnLocation.getImplicitReturnLoc at hR
    repeat' split at hR
    all_goals simp_all
  refine ⟨fun R hR => ?_, fun hf hp => ?_, fun hf hp => ?_⟩
  · obtain rfl := hsome R hR
    refine ⟨?_, fun s => observe_setKind s L _, rfl, rfl⟩
    rw [getKind_setKind L ImplicitReturnKind (by decide)]
    exact hk
  · have h1 : L.isASTNode ExprT = some true := by
      simp [SILLocation.isASTNode, SILLocation.isNode, ASTNodeTy.isFam, ASTNodeTy.getFam,
        isaNode, ExprT, hf, hp]
    unfold ImplicitReturnLocation.getImplicitReturnLoc
    rw [h1]
  · have h1 : L.isASTNode ExprT = some false := by
      simp [SILLocation.isASTNode, SILLocation.isNode, ASTNodeTy.isFam, ASTNodeTy.getFam,
        isaNode, ExprT, hf]
    have h2 : L.isASTNode (ValueDeclT M) = some false := by
      simp [SILLocation.isASTNode, SILLocation.isNode, ASTNodeTy.isFam, ASTNodeTy.getFam,
        isaNode, ValueDeclT, hf]
    have h3 : L.isASTNode (PatternBindingDeclT M) = some false := by
      simp [SILLocation.isASTNode, SILLocation.isNode, ASTNodeTy.isFam, ASTNodeTy.getFam,
        isaNode, PatternBindingDeclT, hf]
    have h4 : L.isNull = false := by
      simp [SILLocation.isNull, ASTNodeTy.isNull, hp]
    unfold ImplicitReturnLocation.getImplicitReturnLoc
    rw [h1, h2, h3]
    simp [h4]

/-- C1 witness: a Regular tag wrapping an expression satisfies both the
precondition and the amended kind hypothesis, and the factory rewrites it to
the ImplicitReturn kind. -/
theorem getImplicitReturnLoc_spec_witness :
    ImplicitReturnLocation.getImplicitReturnLoc M0 (RegularLocation.ofExpr 2)
      = some ((RegularLocation.ofExpr 2).setKind ImplicitReturnKind) :=
  (getImplicitReturnLoc_spec M0 (RegularLocation.ofExpr 2) (by decide)).2.1 rfl (by decide)

/-- C1 counterexample: an InlinedLocation wrapping an expression satisfies the
factory's stated precondition (it references an expression), yet the result
kind is ArtificialUnreachable rather than ImplicitReturn, because setKind ORs
the new kind bits over the Inlined kind: 4 lor 3 = 7. -/
theorem getImplicitReturnLoc_counterexample :
    (InlinedLocation.ofExpr 1).isASTNode ExprT = some true ∧
    (ImplicitReturnLocation.getImplicitReturnLoc M0 (InlinedLocation.ofExpr 1)).map
      SILLocation.getKind = some ArtificialUnreachableKind ∧
    ArtificialUnreachableKind ≠ ImplicitReturnKind := by
  exact ⟨rfl, rfl, by decide⟩

/-- C6 (spec-modelled): with a node present and neither override flag set,
getStartSourceLoc and getEndSourceLoc return the node's own start and end;
once pointToStart (respectively pointToEnd) has been called, all three
position queries return the node's start (respectively end), collapsing the
range; and a tag built only from a raw textual position returns that exact
position from all three queries. -/
theorem position_resolution_spec (P : PosModel) (L : SILLocation) :
    (L.ASTNode.ptr ≠ 0 → L.alwaysPointsToStart = false → L.alwaysPointsToEnd = false →
      L.getStartSourceLoc P = P.startLoc L.ASTNode ∧
      L.getEndSourceLoc P = P.endLoc L.ASTNode ∧
      L.getSourceRange P = (P.startLoc L.ASTNode, P.endLoc L.ASTNode)) ∧
    (L.ASTNode.ptr ≠ 0 → L.alwaysPointsToEnd = false →
      (L.pointToStart).getSourceLoc P = P.startLoc L.ASTNode ∧
      (L.pointToStart).getStartSourceLoc P = P.startLoc L.ASTNode ∧
      (L.pointToStart).getEndSourceLoc P = P.startLoc L.ASTNode) ∧
    (L.ASTNode.ptr ≠ 0 → L.alwaysPointsToStart = false →
      (L.pointToEnd).getSourceLoc P = P.endLoc L.ASTNode ∧
      (L.pointToEnd).getStartSourceLoc P = P.endLoc L.ASTNode ∧
      (L.pointToEnd).getEndSourceLoc P = P.endLoc L.ASTNode) ∧
    (∀ l : Nat, (SILFileLocation.ofLoc l).getSourceLoc P = l ∧
      (SILFileLocation.ofLoc l).getStartSourceLoc P = l ∧
      (SILFileLocation.ofLoc l).getEndSourceLoc P = l) := by
  refine ⟨fun hp h1 h2 => ?_, fun hp h2 => ?_, fun hp h1 => ?_, fun l => ⟨rfl, rfl, rfl⟩⟩
  · have hn : L.ASTNode.isNull = false := by simp [ASTNodeTy.isNull, hp]
    simp [SILLocation.getStartSourceLoc, SILLocation.getEndSourceLoc,
      SILLocation.getSourceRange, hn, h1, h2]
  · have hnL : L.ASTNode.isNull = false := by simp [ASTNodeTy.isNull, hp]
    have hs : (L.pointToStart).alwaysPointsToStart = true :=
      observe_apply_self FlagSetter.toStart L
    have he : (L.pointToStart).alwaysPointsToEnd = false := by
      have h := observe_apply_other (show FlagSetter.toEnd ≠ FlagSetter.toStart by decide) L
      exact h.trans h2
    have ha : (L.pointToStart).ASTNode = L.ASTNode := rfl
    simp [SILLocation.getSourceLoc, SILLocation.getStartSourceLoc,
      SILLocation.getEndSourceLoc, hs, he, ha, hnL]
  · have hnL : L.ASTNode.isNull = false := by simp [ASTNodeTy.isNull, hp]
    have he : (L.pointToEnd).alwaysPointsToEnd = true :=
      observe_apply_self FlagSetter.toEnd L
    have hs : (L.pointToEnd).alwaysPointsToStart = false := by
      have h := observe_apply_other (show FlagSetter.toStart ≠ FlagSetter.toEnd by decide) L
      exact h.trans h1
    have ha : (L.pointToEnd).ASTNode = L.ASTNode := rfl
    simp [SILLocation.getSourceLoc, SILLocation.getStartSourceLoc,
      SILLocation.getEndSourceLoc, he, hs, ha, hnL]

/-- C6 witness: a Regular tag on an expression node with no overrides, its
pointToStart and pointToEnd variants, and a raw SIL file location, evaluated
in the concrete positional model P0. -/
theorem position_resolution_spec_witness :
    (RegularLocation.ofExpr 3).getStartSourceLoc P0 = 31 ∧
    ((RegularLocation.ofExpr 3).pointToEnd).getStartSourceLoc P0 = 32 ∧
    (SILFileLocation.ofLoc 9).getSourceLoc P0 = 9 :=
  ⟨((position_resolution_spec P0 (RegularLocation.ofExpr 3)).1 (by decide) rfl rfl).1,
   ((position_resolution_spec P0 (RegularLocation.ofExpr 3)).2.2.1 (by decide) rfl).2.1,
   ((position_resolution_spec P0 (SILFileLocation.ofLoc 9)).2.2.2 9).1⟩

theorem opEq_iff (L R : SILLocation) :
    SILLocation.opEq L R = true ↔
      (L.KindData = R.KindData ∧ L.ASTNode = R.ASTNode ∧
       L.SILFileSourceLoc = R.SILFileSourceLoc) := by
  unfold SILLocation.opEq
  rw [Bool.and_eq_true, Bool.and_eq_true]
  simp only [beq_iff_eq]
  constructor
  · rintro ⟨⟨h1, h2⟩, h3⟩
    exact ⟨h1, (getOpaqueValue_inj _ _).mp h2, h3⟩
  · rintro ⟨h1, h2, h3⟩
    exact ⟨⟨h1, by rw [h2]⟩, h3⟩

theorem observe_iff_div (s : FlagSetter) (L : SILLocation) :
    s.observe L = true ↔ L.KindData / 2 ^ s.bit % 2 = 1 := by
  rw [FlagSetter.observe_eq, and_one_shiftLeft_ne_zero, testBit_iff_div_mod]

/-- C7: operator== is an equivalence relation; it implies agreement of kind,
of all five flags, of node-reference identity and of the raw position; and
conversely, on well-formed packed words, agreement of those four components
implies equality — so changing any single one of them breaks equality. -/
theorem opEq_spec :
    (∀ L : SILLocation, SILLocation.opEq L L = true) ∧
    (∀ L R : SILLocation, SILLocation.opEq L R = SILLocation.opEq R L) ∧
    (∀ L R S : SILLocation, SILLocation.opEq L R = true → SILLocation.opEq R S = true →
      SILLocation.opEq L S = true) ∧
    (∀ L R : SILLocation, SILLocation.opEq L R = true →
      L.getKind = R.getKind ∧ (∀ s : FlagSetter, s.observe L = s.observe R) ∧
      L.ASTNode = R.ASTNode ∧ L.SILFileSourceLoc = R.SILFileSourceLoc) ∧
    (∀ L R : SILLocation, L.wellFormed → R.wellFormed →
      L.getKind = R.getKind → (∀ s : FlagSetter, s.observe L = s.observe R) →
      L.ASTNode = R.ASTNode → L.SILFileSourceLoc = R.SILFileSourceLoc →
      SILLocation.opEq L R = true) := by
  refine ⟨?_, ?_, ?_, ?_, ?_⟩
  · intro L
    exact (opEq_iff L L).mpr ⟨rfl, rfl, rfl⟩
  · intro L R
    by_cases h : SILLocation.opEq L R = true
    · obtain ⟨h1, h2, h3⟩ := (opEq_iff L R).mp h
      have h' : SILLocation.opEq R L = true :=
        (opEq_iff R L).mpr ⟨h1.symm, h2.symm, h3.symm⟩
      rw [h, h']
    · have h' : ¬ SILLocation.opEq R L = true := by
        intro hc
        obtain ⟨h1, h2, h3⟩ := (opEq_iff R L).mp hc
        exact h ((opEq_iff L R).mpr ⟨h1.symm, h2.symm, h3.symm⟩)
      rw [Bool.not_eq_true] at h h'
      rw [h, h']
  · intro L R S hLR hRS
    obtain ⟨h1, h2, h3⟩ := (opEq_iff L R).mp hLR
    obtain ⟨h4, h5, h6⟩ := (opEq_iff R S).mp hRS
    exact (opEq_iff L S).mpr ⟨h1.trans h4, h2.trans h5, h3.trans h6⟩
  · intro L R h
    obtain ⟨h1, h2, h3⟩ := (opEq_iff L R).mp h
    refine ⟨?_, fun s => ?_, h2, h3⟩
    · unfold SILLocation.getKind
      rw [h1]
    · rw [FlagSetter.observe_eq, FlagSetter.observe_eq, h1]
  · intro L R hL hR hkind hflags hnode hloc
    apply (opEq_iff L R).mpr
    refine ⟨?_, hnode, hloc⟩
    obtain ⟨hL1, hL2⟩ := hL
    obtain ⟨hR1, hR2⟩ := hR
    have hk : L.KindData % 16 = R.KindData % 16 := by
      have hx := hkind
      unfold SILLocation.getKind BaseMask at hx
      rw [and_fifteen_eq_mod, and_fifteen_eq_mod] at hx
      exact hx
    have hobs : ∀ s : FlagSetter,
        (L.KindData / 2 ^ s.bit % 2 = 1 ↔ R.KindData / 2 ^ s.bit % 2 = 1) := by
      intro s
      rw [← observe_iff_div, ← observe_iff_div, hflags s]
    have h5 := hobs .autoGenerated
    have h6 := hobs .toStart
    have h7 := hobs .toEnd
    have h8 := hobs .inTopLevel
    have h9 := hobs .prologue
    simp only [FlagSetter.bit, AutoGeneratedBit, PointsToStartBit, PointsToEndBit,
      IsInTopLevel, IsInPrologue] at h5 h6 h7 h8 h9
    have e5 : (2 : Nat) ^ 5 = 32 := by norm_num
    have e6 : (2 : Nat) ^ 6 = 64 := by norm_num
    have e7 : (2 : Nat) ^ 7 = 128 := by norm_num
    have e8 : (2 : Nat) ^ 8 = 256 := by norm_num
    have e9 : (2 : Nat) ^ 9 = 512 := by norm_num
    rw [e5] at h5
    rw [e6] at h6
    rw [e7] at h7
    rw [e8] at h8
    rw [e9] at h9
    clear hflags hobs hkind hnode hloc e5 e6 e7 e8 e9
    have b5 : L.KindData / 32 % 2 = R.KindData / 32 % 2 := by omega
    have b6 : L.KindData / 64 % 2 = R.KindData / 64 % 2 := by omega
    have b7 : L.KindData / 128 % 2 = R.KindData / 128 % 2 := by omega
    have b8 : L.KindData / 256 % 2 = R.KindData / 256 % 2 := by omega
    have b9 : L.KindData / 512 % 2 = R.KindData / 512 % 2 := by omega
    have d1 : L.KindData = 512 * (L.KindData / 512 % 2) + 256 * (L.KindData / 256 % 2)
        + 128 * (L.KindData / 128 % 2) + 64 * (L.KindData / 64 % 2)
        + 32 * (L.KindData / 32 % 2) + L.KindData % 32 := by omega
    have d2 : R.KindData = 512 * (R.KindData / 512 % 2) + 256 * (R.KindData / 256 % 2)
        + 128 * (R.KindData / 128 % 2) + 64 * (R.KindData / 64 % 2)
        + 32 * (R.KindData / 32 % 2) + R.KindData % 32 := by omega
    omega

/-- C7 witness: the backward direction instantiated at the module location
against itself; the forward parts need no witness input. -/
theorem opEq_spec_witness :
    SILLocation.opEq RegularLocation.getModuleLocation RegularLocation.getModuleLocation
      = true :=
  opEq_spec.2.2.2.2 RegularLocation.getModuleLocation RegularLocation.getModuleLocation
    (by constructor <;> decide) (by constructor <;> decide) rfl (fun s => rfl) rfl rfl
